import Mathlib

/-!
Verification of the VSCC default transaction-validation chaincode
(`core/scc/vscc/validator_onevalidsignature.go`).

The Go code is shallowly embedded: byte slices become `List Nat`; Go
pointers whose nil-ness the code observes (or dereferences) become
`Option`; the external collaborators (protobuf codec helpers from
`protos/utils`, the policy provider, the membership manager) are fields
of a `Collabs` record of pure functions, since the core only consumes
their results.  Go functions returning `(T, error)` become
`Except String T`; `shim.Error`/`shim.Success` become the `Response`
type, with an extra `panic` constructor modelling a Go runtime panic
(nil-pointer dereference, index out of range) escaping the function.
-/

namespace VSCC

/-- Go `[]byte` contents (nil-ness is modelled separately, by `Option`,
only where the code observes it). -/
abbrev Bytes := List Nat

/-- `common.Envelope`: `{ Payload []byte; Signature []byte }`. -/
structure Envelope where
  payload : Bytes
  signature : Bytes
deriving DecidableEq

/-- `common.Header`: the part consumed here is `ChannelHeader []byte`. -/
structure Header where
  channelHeader : Bytes
deriving DecidableEq

/-- `common.Payload`: `{ Header *common.Header; Data []byte }`. -/
structure Payload where
  header : Header
  data : Bytes
deriving DecidableEq

/-- `common.ChannelHeader`: the fields consumed are `ChannelId` and `Type`. -/
structure ChannelHeader where
  channelId : String
  type : Int
deriving DecidableEq

/-- Modelled from the spec: the enum value
`common.HeaderType_ENDORSER_TRANSACTION` is declared in the generated
`protos/common` package, which is outside the provided sources; only its
identity (equality/inequality with a header's `Type`) matters here. -/
def HeaderType_ENDORSER_TRANSACTION : Int := 3

/-- `peer.Endorsement`: `{ Endorser []byte; Signature []byte }`. -/
structure Endorsement where
  endorser : Bytes
  signature : Bytes
deriving DecidableEq

/-- `peer.ChaincodeEndorsedAction`:
`{ ProposalResponsePayload []byte; Endorsements []*peer.Endorsement }`. -/
structure ChaincodeEndorsedAction where
  proposalResponsePayload : Bytes
  endorsements : List Endorsement
deriving DecidableEq

/-- `peer.ChaincodeActionPayload`: `Action` is a pointer in Go and the code
dereferences it without a nil check, so it is an `Option` here. -/
structure ChaincodeActionPayload where
  chaincodeProposalPayload : Bytes
  action : Option ChaincodeEndorsedAction
deriving DecidableEq

/-- `peer.TransactionAction`: `{ Header []byte; Payload []byte }`. -/
structure TransactionAction where
  header : Bytes
  payload : Bytes
deriving DecidableEq

/-- `peer.Transaction`: `{ Actions []*peer.TransactionAction }`. -/
structure Transaction where
  actions : List TransactionAction
deriving DecidableEq

/-- `common.SignedData`: `{ Data, Identity, Signature []byte }`. -/
structure SignedData where
  data : Bytes
  identity : Bytes
  signature : Bytes
deriving DecidableEq

/-- `peer.ChaincodeID`: the field consumed is `Name`. -/
structure ChaincodeID where
  name : String
deriving DecidableEq

/-- `peer.ChaincodeHeaderExtension`: `ChaincodeId` is a pointer that the
code dereferences without a nil check, hence `Option`. -/
structure ChaincodeHeaderExtension where
  chaincodeId : Option ChaincodeID
deriving DecidableEq

/-- `peer.ChaincodeProposalPayload`: the field consumed is `Input []byte`. -/
structure ChaincodeProposalPayload where
  input : Bytes
deriving DecidableEq

/-- `peer.ChaincodeInput`: `Args [][]byte`; the code compares `Args`
against nil, so the whole list is an `Option`. -/
structure ChaincodeInput where
  args : Option (List Bytes)
deriving DecidableEq

/-- `peer.ChaincodeSpec`: the field consumed is `Input *peer.ChaincodeInput`,
compared against nil by the code. -/
structure ChaincodeSpec where
  input : Option ChaincodeInput
deriving DecidableEq

/-- `peer.ChaincodeInvocationSpec`: `ChaincodeSpec *peer.ChaincodeSpec`,
compared against nil by the code. -/
structure ChaincodeInvocationSpec where
  chaincodeSpec : Option ChaincodeSpec
deriving DecidableEq

/-- `pb.Response` as produced through `shim.Success`/`shim.Error`, plus a
`panic` constructor for a Go runtime panic escaping `Invoke`. -/
inductive Response where
  | success : Response
  | error : String → Response
  | panic : String → Response
deriving DecidableEq

/-- The Go `error` returned by `ValidateLSCCInvocation` (`ok` = nil),
plus a `panic` constructor for a runtime panic. -/
inductive LsccResult where
  | ok : LsccResult
  | err : String → LsccResult
  | panic : String → LsccResult
deriving DecidableEq

/-- A compiled policy as returned by `pProvider.NewPolicy`: the core only
calls its `Evaluate` method on a signature set, so it is embedded as that
function. -/
abbrev Policy := List SignedData → Except String Unit

/-- The external collaborators (`protos/utils` decode helpers, the
channel-scoped policy provider, the protobuf unmarshaller), modelled as a
record of fixed pure functions.  `newPolicy` folds
`mspmgmt.GetManagerForChain(chdr.ChannelId)`, `cauthdsl.NewPolicyProvider`
and `pProvider.NewPolicy(args[2])` into one channel-id-keyed function. -/
structure Collabs where
  getEnvelopeFromBlock : Bytes → Except String Envelope
  getPayload : Envelope → Except String Payload
  unmarshalChannelHeader : Bytes → Except String ChannelHeader
  newPolicy : String → Bytes → Except String Policy
  getTransaction : Bytes → Except String Transaction
  getChaincodeActionPayload : Bytes → Except String ChaincodeActionPayload
  getChaincodeHeaderExtension : Header → Except String ChaincodeHeaderExtension
  getChaincodeProposalPayload : Bytes → Except String ChaincodeProposalPayload
  unmarshalChaincodeInvocationSpec : Bytes → Except String ChaincodeInvocationSpec

/-- Modelled from the spec: the allow-list constant `lscc.DEPLOY`
("deploy"), declared in the `core/scc/lscc` package which is outside the
provided sources.  ASCII bytes of "deploy". -/
def DEPLOY : Bytes := [100, 101, 112, 108, 111, 121]

/-- Modelled from the spec: the allow-list constant `lscc.UPGRADE`
("upgrade"), declared in the `core/scc/lscc` package which is outside the
provided sources.  ASCII bytes of "upgrade". -/
def UPGRADE : Bytes := [117, 112, 103, 114, 97, 100, 101]

/-- Go `string(bs)` on the byte arguments (faithful on the ASCII range,
which covers the lifecycle function names). -/
def bytesToString (bs : Bytes) : String := String.mk (bs.map Char.ofNat)

/-- Message of the Go runtime panic raised by an out-of-range index. -/
def indexOutOfRangeMsg : String := "runtime error: index out of range"

/-- Message of the Go runtime panic raised by a nil-pointer dereference. -/
def nilDerefMsg : String :=
  "runtime error: invalid memory address or nil pointer dereference"

/-- `fmt.Errorf("VSCC error: committing invalid vscc invocation")`. -/
def invalidInvocationMsg : String := "VSCC error: committing invalid vscc invocation"

/-- `fmt.Errorf("VSCC error: committing an invocation of function %s of lscc is invalid", lsccFunc)`. -/
def lsccBadFuncMsg (f : Bytes) : String :=
  "VSCC error: committing an invocation of function " ++ bytesToString f ++
    " of lscc is invalid"

/-- `fmt.Sprintf("Only Endorser Transactions are supported, provided type %d", chdr.Type)`. -/
def unsupportedTypeMsg (t : Int) : String :=
  "Only Endorser Transactions are supported, provided type " ++ toString t

/-- `fmt.Sprintf("VSCC error: policy evaluation failed, err %s", err)`. -/
def policyEvalFailMsg (e : String) : String :=
  "VSCC error: policy evaluation failed, err " ++ e

/-- One entry of the signature set:
`SignedData{ Data: append(prespBytes, endorsement.Endorser...),
Identity: endorsement.Endorser, Signature: endorsement.Signature }`. -/
def mkSignedData (prespBytes : Bytes) (e : Endorsement) : SignedData :=
  { data := prespBytes ++ e.endorser
    identity := e.endorser
    signature := e.signature }

/-- The inner loop of `Invoke` that fills
`signatureSet := make([]*common.SignedData, len(cap.Action.Endorsements))`
entry by entry, written as the equivalent index-preserving map over the
endorsement sequence. -/
def buildSignatureSet (ea : ChaincodeEndorsedAction) : List SignedData :=
  ea.endorsements.map (mkSignedData ea.proposalResponsePayload)

/-- `ValidateLSCCInvocation`, translated step by step.  The Go guard
`cis == nil || ...` can never trip on its first disjunct (`cis` is freshly
allocated before `proto.Unmarshal`), so only the three pointer checks
remain.  `Args[0]` on a non-nil empty `Args` slice is an out-of-range
index in Go, modelled by the `panic` branch.  In the Go `switch`, the
`case lscc.DEPLOY:` body is empty (no fallthrough in Go), so control
reaches the trailing `return nil`: both DEPLOY and UPGRADE accept. -/
def ValidateLSCCInvocation (c : Collabs) (cap : ChaincodeActionPayload) : LsccResult :=
  match c.getChaincodeProposalPayload cap.chaincodeProposalPayload with
  | Except.error e => LsccResult.err e
  | Except.ok cpp =>
    match c.unmarshalChaincodeInvocationSpec cpp.input with
    | Except.error e => LsccResult.err e
    | Except.ok cis =>
      match cis.chaincodeSpec with
      | none => LsccResult.err invalidInvocationMsg
      | some cs =>
        match cs.input with
        | none => LsccResult.err invalidInvocationMsg
        | some inp =>
          match inp.args with
          | none => LsccResult.err invalidInvocationMsg
          | some argsList =>
            match argsList with
            | [] => LsccResult.panic indexOutOfRangeMsg
            | lsccFunc :: _lsccArgs =>
              if lsccFunc = DEPLOY then LsccResult.ok
              else if lsccFunc = UPGRADE then LsccResult.ok
              else LsccResult.err (lsccBadFuncMsg lsccFunc)

/-- The body of the `for _, act := range tx.Actions` loop of `Invoke` for
one action: decode the action payload, build the signature set, evaluate
the policy, decode the header extension, and run the lscc guard when the
target chaincode is "lscc".  `none` means the loop continues with the
next action; `some r` means `Invoke` returns `r` at once. -/
def doAction (c : Collabs) (payl : Payload) (policy : Policy)
    (act : TransactionAction) : Option Response :=
  match c.getChaincodeActionPayload act.payload with
  | Except.error e => some (Response.error e)
  | Except.ok cap =>
    match cap.action with
    | none => some (Response.panic nilDerefMsg)
    | some ea =>
      match policy (buildSignatureSet ea) with
      | Except.error e => some (Response.error (policyEvalFailMsg e))
      | Except.ok _ =>
        match c.getChaincodeHeaderExtension payl.header with
        | Except.error e => some (Response.error e)
        | Except.ok hdrExt =>
          match hdrExt.chaincodeId with
          | none => some (Response.panic nilDerefMsg)
          | some ccid =>
            if ccid.name = "lscc" then
              match ValidateLSCCInvocation c cap with
              | LsccResult.ok => none
              | LsccResult.err e => some (Response.error e)
              | LsccResult.panic m => some (Response.panic m)
            else none

/-- The `for _, act := range tx.Actions` loop of `Invoke`: the first
action whose step aborts yields the response; when all steps continue,
control falls through to `shim.Success(nil)`. -/
def validateActions (c : Collabs) (payl : Payload) (policy : Policy) :
    List TransactionAction → Response
  | [] => Response.success
  | act :: rest =>
    match doAction c payl policy act with
    | some r => r
    | none => validateActions c payl policy rest

/-- `Invoke`, translated step by step in source order: argument-count and
nil checks on `args[1]`/`args[2]`, envelope decode, payload decode,
channel-header decode, policy construction (before the header-type check,
as in the source), header-type check, transaction decode, then the
per-action loop. -/
def Invoke (c : Collabs) (args : List (Option Bytes)) : Response :=
  match args with
  | _fn :: a1 :: a2 :: _rest =>
    match a1 with
    | none => Response.error "No block to validate"
    | some envBytes =>
      match a2 with
      | none => Response.error "No policy supplied"
      | some polBytes =>
        match c.getEnvelopeFromBlock envBytes with
        | Except.error e => Response.error e
        | Except.ok env =>
          match c.getPayload env with
          | Except.error e => Response.error e
          | Except.ok payl =>
            match c.unmarshalChannelHeader payl.header.channelHeader with
            | Except.error e => Response.error e
            | Except.ok chdr =>
              match c.newPolicy chdr.channelId polBytes with
              | Except.error e => Response.error e
              | Except.ok policy =>
                if chdr.type ≠ HeaderType_ENDORSER_TRANSACTION then
                  Response.error (unsupportedTypeMsg chdr.type)
                else
                  match c.getTransaction payl.data with
                  | Except.error e => Response.error e
                  | Except.ok tx => validateActions c payl policy tx.actions
  | _ => Response.error "Incorrect number of arguments"

/-! ## Claim C1: byte-exact construction of each SignedData entry -/

/-- Claim C1: for every endorsed action and every endorsement at index `i`
of its endorsement sequence, the SignedData entry built at index `i` has
data equal to the proposal-response payload immediately followed by the
endorser identity (no separator), identity equal to the endorser bytes,
and signature equal to the endorsement's signature bytes; the statement
is fully general, so it covers an empty payload and an empty identity. -/
theorem signedData_exact (ea : ChaincodeEndorsedAction) (i : Nat) (e : Endorsement)
    (h : ea.endorsements[i]? = some e) :
    (buildSignatureSet ea)[i]? =
      some { data := ea.proposalResponsePayload ++ e.endorser
             identity := e.endorser
             signature := e.signature } := by
  simp [buildSignatureSet, List.getElem?_map, h, mkSignedData]

/-- Witness for C1 at a concrete boundary input: empty proposal-response
payload and empty endorser identity. -/
theorem signedData_exact_witness :
    (buildSignatureSet ⟨[], [⟨[], [7]⟩]⟩)[0]? = some ⟨[], [], [7]⟩ :=
  signedData_exact ⟨[], [⟨[], [7]⟩]⟩ 0 ⟨[], [7]⟩ rfl

/-! ## Claim C5: signature-set shape (length, per-index derivation, empty case) -/

/-- Claim C5: for every endorsed action, the built signature set has
exactly as many entries as the endorsement sequence, the entry at every
index `i` is derived from the endorsement at index `i` (order preserved),
and zero endorsements yield the empty signature set. -/
theorem signatureSet_shape (ea : ChaincodeEndorsedAction) :
    (buildSignatureSet ea).length = ea.endorsements.length ∧
    (∀ (i : Nat) (e : Endorsement), ea.endorsements[i]? = some e →
      (buildSignatureSet ea)[i]? = some (mkSignedData ea.proposalResponsePayload e)) ∧
    (ea.endorsements = [] → buildSignatureSet ea = []) := by
  refine ⟨?_, ?_, ?_⟩
  · simp [buildSignatureSet]
  · intro i e h
    simp [buildSignatureSet, List.getElem?_map, h]
  · intro h
    simp [buildSignatureSet, h]

/-- Witness for C5 at concrete inputs: a two-endorsement action (length,
index-1 derivation) and a zero-endorsement action (empty set). -/
theorem signatureSet_shape_witness :
    (buildSignatureSet ⟨[1], [⟨[2], [3]⟩, ⟨[4], [5]⟩]⟩).length = 2 ∧
    (buildSignatureSet ⟨[1], [⟨[2], [3]⟩, ⟨[4], [5]⟩]⟩)[1]? =
      some (mkSignedData [1] ⟨[4], [5]⟩) ∧
    buildSignatureSet ⟨[1], []⟩ = [] :=
  ⟨(signatureSet_shape ⟨[1], [⟨[2], [3]⟩, ⟨[4], [5]⟩]⟩).1,
   (signatureSet_shape ⟨[1], [⟨[2], [3]⟩, ⟨[4], [5]⟩]⟩).2.1 1 ⟨[4], [5]⟩ rfl,
   (signatureSet_shape ⟨[1], []⟩).2.2 rfl⟩

/-! ## Claims C2, C7, C9: the lifecycle (lscc) guard -/

/-- Claim C2: for every lscc action whose decoded invocation spec passes
the structural null checks and has at least one argument, the guard
accepts exactly when argument 0 equals "deploy" or "upgrade" under exact
byte (case-sensitive) comparison, and any other function name is rejected
with the lifecycle invocation error. -/
theorem lscc_allowlist (c : Collabs) (cap : ChaincodeActionPayload)
    (cpp : ChaincodeProposalPayload) (cis : ChaincodeInvocationSpec)
    (cs : ChaincodeSpec) (inp : ChaincodeInput) (a0 : Bytes) (rest : List Bytes)
    (h1 : c.getChaincodeProposalPayload cap.chaincodeProposalPayload = Except.ok cpp)
    (h2 : c.unmarshalChaincodeInvocationSpec cpp.input = Except.ok cis)
    (h3 : cis.chaincodeSpec = some cs)
    (h4 : cs.input = some inp)
    (h5 : inp.args = some (a0 :: rest)) :
    (ValidateLSCCInvocation c cap = LsccResult.ok ↔ (a0 = DEPLOY ∨ a0 = UPGRADE)) ∧
    (a0 ≠ DEPLOY → a0 ≠ UPGRADE →
      ValidateLSCCInvocation c cap = LsccResult.err (lsccBadFuncMsg a0)) := by
  constructor
  · by_cases hd : a0 = DEPLOY
    · simp [ValidateLSCCInvocation, h1, h2, h3, h4, h5, hd]
    · by_cases hu : a0 = UPGRADE
      · simp [ValidateLSCCInvocation, h1, h2, h3, h4, h5, hd, hu]
      · simp [ValidateLSCCInvocation, h1, h2, h3, h4, h5, hd, hu]
  · intro hd hu
    simp [ValidateLSCCInvocation, h1, h2, h3, h4, h5, hd, hu]

/-- Collaborators for the C2 witness: the proposal payload decodes to an
invocation spec whose single argument is "deploy". -/
def ccDeploy : Collabs :=
  ⟨fun _ => Except.error "unused", fun _ => Except.error "unused",
   fun _ => Except.error "unused", fun _ _ => Except.error "unused",
   fun _ => Except.error "unused", fun _ => Except.error "unused",
   fun _ => Except.error "unused",
   fun _ => Except.ok ⟨[2]⟩,
   fun _ => Except.ok ⟨some ⟨some ⟨some [DEPLOY]⟩⟩⟩⟩

/-- Witness for C2 at a concrete input: function name "deploy" is
accepted by the guard. -/
theorem lscc_allowlist_witness :
    ValidateLSCCInvocation ccDeploy ⟨[1], none⟩ = LsccResult.ok :=
  (lscc_allowlist ccDeploy ⟨[1], none⟩ ⟨[2]⟩ ⟨some ⟨some ⟨some [DEPLOY]⟩⟩⟩
    ⟨some ⟨some [DEPLOY]⟩⟩ ⟨some [DEPLOY]⟩ DEPLOY []
    rfl rfl rfl rfl rfl).1.mpr (Or.inl rfl)

/-- Claim C7: for every lscc action whose outer decode layers succeed but
whose invocation spec, inner chaincode spec, input, or argument list is
absent, the guard rejects with the lifecycle invocation error. -/
theorem lscc_null_checks (c : Collabs) (cap : ChaincodeActionPayload)
    (cpp : ChaincodeProposalPayload) (cis : ChaincodeInvocationSpec)
    (h1 : c.getChaincodeProposalPayload cap.chaincodeProposalPayload = Except.ok cpp)
    (h2 : c.unmarshalChaincodeInvocationSpec cpp.input = Except.ok cis)
    (h3 : cis.chaincodeSpec = none ∨
      (∃ cs, cis.chaincodeSpec = some cs ∧ cs.input = none) ∨
      (∃ cs inp, cis.chaincodeSpec = some cs ∧ cs.input = some inp ∧ inp.args = none)) :
    ValidateLSCCInvocation c cap = LsccResult.err invalidInvocationMsg := by
  rcases h3 with h | ⟨cs, hcs, hin⟩ | ⟨cs, inp, hcs, hin, hargs⟩
  · simp [ValidateLSCCInvocation, h1, h2, h]
  · simp [ValidateLSCCInvocation, h1, h2, hcs, hin]
  · simp [ValidateLSCCInvocation, h1, h2, hcs, hin, hargs]

/-- Collaborators for the C7 witness: the decoded invocation spec has a
chaincode spec and input but a nil argument list. -/
def ccNilArgs : Collabs :=
  ⟨fun _ => Except.error "unused", fun _ => Except.error "unused",
   fun _ => Except.error "unused", fun _ _ => Except.error "unused",
   fun _ => Except.error "unused", fun _ => Except.error "unused",
   fun _ => Except.error "unused",
   fun _ => Except.ok ⟨[2]⟩,
   fun _ => Except.ok ⟨some ⟨some ⟨none⟩⟩⟩⟩

/-- Witness for C7 at a concrete input: a nil argument list is rejected
with the lifecycle invocation error. -/
theorem lscc_null_checks_witness :
    ValidateLSCCInvocation ccNilArgs ⟨[1], none⟩ = LsccResult.err invalidInvocationMsg :=
  lscc_null_checks ccNilArgs ⟨[1], none⟩ ⟨[2]⟩ ⟨some ⟨some ⟨none⟩⟩⟩
    rfl rfl (Or.inr (Or.inr ⟨⟨some ⟨none⟩⟩, ⟨none⟩, rfl, rfl, rfl⟩))

/-- Collaborators for C9: the decoded invocation spec has a non-nil but
empty argument list. -/
def ccEmptyArgs : Collabs :=
  ⟨fun _ => Except.error "unused", fun _ => Except.error "unused",
   fun _ => Except.error "unused", fun _ _ => Except.error "unused",
   fun _ => Except.error "unused", fun _ => Except.error "unused",
   fun _ => Except.error "unused",
   fun _ => Except.ok ⟨[2]⟩,
   fun _ => Except.ok ⟨some ⟨some ⟨some []⟩⟩⟩⟩

/-- Claim C9 (code bug): on an lscc action whose decoded invocation spec
has a non-nil but EMPTY argument list, the nil checks pass and the code
indexes argument 0 out of range (a Go runtime panic), instead of
returning an error: the access is not guarded by a length check. -/
theorem lscc_empty_args_panic :
    ValidateLSCCInvocation ccEmptyArgs ⟨[1], none⟩ = LsccResult.panic indexOutOfRangeMsg :=
  rfl

/-! ## Claim C3: non-endorser header type -/

/-- Collaborators for the C3 counterexample: decoding succeeds, the
channel header has type 1 (not an endorser transaction), and the policy
bytes fail to compile. -/
def ccBadPolicy : Collabs :=
  ⟨fun _ => Except.ok ⟨[], []⟩,
   fun _ => Except.ok ⟨⟨[]⟩, []⟩,
   fun _ => Except.ok ⟨"testchannel", 1⟩,
   fun _ _ => Except.error "policy compile failed",
   fun _ => Except.error "unused", fun _ => Except.error "unused",
   fun _ => Except.error "unused", fun _ => Except.error "unused",
   fun _ => Except.error "unused"⟩

/-- Counterexample to claim C3 as stated: a well-formed envelope whose
header type is 1 (not ENDORSER_TRANSACTION) together with policy bytes
that fail to compile is rejected with the policy-compile error, not with
the unsupported-type error — the source constructs the policy before the
header-type check, so the error kind does depend on whether the policy
bytes compile. -/
theorem unsupported_type_counterexample :
    Invoke ccBadPolicy [some [], some [0], some [1]] =
      Response.error "policy compile failed" ∧
    (1 : Int) ≠ HeaderType_ENDORSER_TRANSACTION ∧
    Response.error "policy compile failed" ≠ Response.error (unsupportedTypeMsg 1) := by
  refine ⟨rfl, by decide, by decide⟩

/-- Claim C3 as amended: for every well-formed envelope whose decoded
header type is not ENDORSER_TRANSACTION and whose policy bytes compile,
validation rejects with the unsupported-type error regardless of the
compiled policy's content; when the policy bytes fail to compile,
validation still rejects, but with the policy-compile error. -/
theorem unsupported_type_rejects (c : Collabs) (a0 : Option Bytes)
    (envBytes polBytes : Bytes) (rest : List (Option Bytes))
    (env : Envelope) (payl : Payload) (chdr : ChannelHeader)
    (h1 : c.getEnvelopeFromBlock envBytes = Except.ok env)
    (h2 : c.getPayload env = Except.ok payl)
    (h3 : c.unmarshalChannelHeader payl.header.channelHeader = Except.ok chdr)
    (hty : chdr.type ≠ HeaderType_ENDORSER_TRANSACTION) :
    (∀ policy, c.newPolicy chdr.channelId polBytes = Except.ok policy →
      Invoke c (a0 :: some envBytes :: some polBytes :: rest) =
        Response.error (unsupportedTypeMsg chdr.type)) ∧
    (∀ e, c.newPolicy chdr.channelId polBytes = Except.error e →
      Invoke c (a0 :: some envBytes :: some polBytes :: rest) = Response.error e) := by
  constructor
  · intro policy h4
    simp [Invoke, h1, h2, h3, h4, hty]
  · intro e h4
    simp [Invoke, h1, h2, h3, h4]

/-- Collaborators for the C3 witness: as `ccBadPolicy` but the policy
bytes compile to an always-accepting policy. -/
def ccOkPolicyBadType : Collabs :=
  ⟨fun _ => Except.ok ⟨[], []⟩,
   fun _ => Except.ok ⟨⟨[]⟩, []⟩,
   fun _ => Except.ok ⟨"testchannel", 1⟩,
   fun _ _ => Except.ok (fun _ => Except.ok ()),
   fun _ => Except.error "unused", fun _ => Except.error "unused",
   fun _ => Except.error "unused", fun _ => Except.error "unused",
   fun _ => Except.error "unused"⟩

/-- Witness for the amended C3 at a concrete input: header type 1 with a
compiling policy rejects with the unsupported-type error. -/
theorem unsupported_type_rejects_witness :
    Invoke ccOkPolicyBadType [some [], some [0], some [1]] =
      Response.error (unsupportedTypeMsg 1) :=
  (unsupported_type_rejects ccOkPolicyBadType (some []) [0] [1] []
    ⟨[], []⟩ ⟨⟨[]⟩, []⟩ ⟨"testchannel", 1⟩ rfl rfl rfl (by decide)).1
    (fun _ => Except.ok ()) rfl

/-! ## Claim C6: the argument guard -/

/-- Collaborators for the C6 counterexample: the envelope decoder records
that decoding was reached by returning a recognizable error. -/
def ccDecodeProbe : Collabs :=
  ⟨fun _ => Except.error "decode attempted",
   fun _ => Except.error "unused", fun _ => Except.error "unused",
   fun _ _ => Except.error "unused", fun _ => Except.error "unused",
   fun _ => Except.error "unused", fun _ => Except.error "unused",
   fun _ => Except.error "unused", fun _ => Except.error "unused"⟩

/-- Counterexample to claim C6 as stated: empty-but-present envelope and
policy bytes are NOT rejected with an argument error — the code only
compares the slices against nil, so validation proceeds into envelope
decoding (the result is the decoder's error, none of the three
argument-error messages). -/
theorem arg_guard_counterexample :
    Invoke ccDecodeProbe [some [], some [], some []] =
      Response.error "decode attempted" ∧
    Response.error "decode attempted" ≠ Response.error "Incorrect number of arguments" ∧
    Response.error "decode attempted" ≠ Response.error "No block to validate" ∧
    Response.error "decode attempted" ≠ Response.error "No policy supplied" := by
  refine ⟨rfl, by decide, by decide, by decide⟩

/-- Claim C6 as amended: with fewer than 3 arguments, or with an absent
(nil) envelope or policy argument, validation rejects with the matching
argument error, before any decoding or policy work (the collaborators are
universally quantified, so no decode result can influence the verdict)
and independently of the other arguments' content; an empty-but-present
byte slice, however, passes the argument guard (emptiness is not
checked). -/
theorem arg_guard_nil_checks :
    (∀ (c : Collabs) (args : List (Option Bytes)), args.length < 3 →
      Invoke c args = Response.error "Incorrect number of arguments") ∧
    (∀ (c : Collabs) (a0 a2 : Option Bytes) (rest : List (Option Bytes)),
      Invoke c (a0 :: none :: a2 :: rest) = Response.error "No block to validate") ∧
    (∀ (c : Collabs) (a0 : Option Bytes) (e : Bytes) (rest : List (Option Bytes)),
      Invoke c (a0 :: some e :: none :: rest) = Response.error "No policy supplied") := by
  refine ⟨?_, ?_, ?_⟩
  · intro c args h
    match args with
    | [] => rfl
    | [_] => rfl
    | [_, _] => rfl
    | _ :: _ :: _ :: _ => simp at h; omega
  · intro c a0 a2 rest
    rfl
  · intro c a0 e rest
    rfl

/-- Witness for the amended C6 at concrete inputs: two supplied
arguments trigger the count error; a nil second or third argument
triggers the matching absence error. -/
theorem arg_guard_nil_checks_witness :
    Invoke ccDecodeProbe [some [], some []] =
      Response.error "Incorrect number of arguments" ∧
    Invoke ccDecodeProbe [some [], none, some []] =
      Response.error "No block to validate" ∧
    Invoke ccDecodeProbe [some [], some [], none] =
      Response.error "No policy supplied" :=
  ⟨arg_guard_nil_checks.1 ccDecodeProbe [some [], some []] (by decide),
   arg_guard_nil_checks.2.1 ccDecodeProbe (some []) (some []) [],
   arg_guard_nil_checks.2.2 ccDecodeProbe (some []) [] []⟩

/-! ## Claim C8: determinism -/

/-- Claim C8: validation is deterministic — with the collaborators fixed,
two runs of `Invoke` on the same argument list yield the same response
(hence the same verdict and, on rejection, the same failure message). -/
theorem invoke_deterministic (c : Collabs) (args : List (Option Bytes))
    (r₁ r₂ : Response) (h1 : Invoke c args = r₁) (h2 : Invoke c args = r₂) :
    r₁ = r₂ :=
  h1.symm.trans h2

/-- Witness for C8 at a concrete input: two evaluations of the same call
produce the same response. -/
theorem invoke_deterministic_witness :
    (Response.error "Incorrect number of arguments" : Response) =
      Response.error "Incorrect number of arguments" :=
  invoke_deterministic ccDecodeProbe []
    (Response.error "Incorrect number of arguments")
    (Response.error "Incorrect number of arguments") rfl rfl

/-! ## Claim C4: all actions must pass, first failure wins -/

/-- Every abort produced by an action step wraps an error or a panic,
never a success response. -/
theorem doAction_ne_some_success (c : Collabs) (payl : Payload) (policy : Policy)
    (act : TransactionAction) :
    doAction c payl policy act ≠ some Response.success := by
  unfold doAction
  repeat' split
  all_goals simp

/-- The action loop skips a prefix of passing actions. -/
theorem validateActions_append (c : Collabs) (payl : Payload) (policy : Policy)
    (pre xs : List TransactionAction)
    (hpre : ∀ b ∈ pre, doAction c payl policy b = none) :
    validateActions c payl policy (pre ++ xs) = validateActions c payl policy xs := by
  induction pre with
  | nil => rfl
  | cons b pre ih =>
    simp only [List.cons_append, validateActions]
    rw [hpre b (by simp)]
    exact ih (fun x hx => hpre x (by simp [hx]))

/-- Claim C4: (1) the action loop succeeds exactly when every action's
step passes every check; (2) when a prefix of actions passes and the next
action fails, the verdict is that action's failure, and it is the same
for every continuation of the list — no check of any later action can
influence it; (3) given the decode chain succeeds and the header type is
ENDORSER_TRANSACTION, `Invoke` returns exactly the loop's verdict. -/
theorem validation_allpass_firstfail :
    (∀ (c : Collabs) (payl : Payload) (policy : Policy)
      (acts : List TransactionAction),
      (validateActions c payl policy acts = Response.success ↔
        ∀ a ∈ acts, doAction c payl policy a = none)) ∧
    (∀ (c : Collabs) (payl : Payload) (policy : Policy)
      (pre : List TransactionAction) (act : TransactionAction)
      (post post' : List TransactionAction) (r : Response),
      (∀ b ∈ pre, doAction c payl policy b = none) →
      doAction c payl policy act = some r →
      validateActions c payl policy (pre ++ act :: post) = r ∧
      validateActions c payl policy (pre ++ act :: post') = r) ∧
    (∀ (c : Collabs) (a0 : Option Bytes) (envBytes polBytes : Bytes)
      (rest : List (Option Bytes)) (env : Envelope) (payl : Payload)
      (chdr : ChannelHeader) (policy : Policy) (tx : Transaction),
      c.getEnvelopeFromBlock envBytes = Except.ok env →
      c.getPayload env = Except.ok payl →
      c.unmarshalChannelHeader payl.header.channelHeader = Except.ok chdr →
      c.newPolicy chdr.channelId polBytes = Except.ok policy →
      chdr.type = HeaderType_ENDORSER_TRANSACTION →
      c.getTransaction payl.data = Except.ok tx →
      Invoke c (a0 :: some envBytes :: some polBytes :: rest) =
        validateActions c payl policy tx.actions) := by
  refine ⟨?_, ?_, ?_⟩
  · intro c payl policy acts
    induction acts with
    | nil => simp [validateActions]
    | cons a rest ih =>
      simp only [validateActions]
      cases h : doAction c payl policy a with
      | none =>
        simp only [ih, List.mem_cons]
        constructor
        · intro hall b hb
          rcases hb with hb | hb
          · rw [hb]; exact h
          · exact hall b hb
        · intro hall b hb
          exact hall b (Or.inr hb)
      | some r =>
        have hne : r ≠ Response.success := by
          intro hr
          exact doAction_ne_some_success c payl policy a (hr ▸ h)
        constructor
        · intro hr
          exact absurd hr hne
        · intro hall
          have := hall a (by simp)
          rw [this] at h
          exact absurd h (by simp)
  · intro c payl policy pre act post post' r hpre hact
    constructor
    · rw [validateActions_append c payl policy pre _ hpre]
      simp [validateActions, hact]
    · rw [validateActions_append c payl policy pre _ hpre]
      simp [validateActions, hact]
  · intro c a0 envBytes polBytes rest env payl chdr policy tx h1 h2 h3 h4 hty h5
    simp [Invoke, h1, h2, h3, h4, hty, h5]

/-- Collaborators for the C4 witness: every action payload decodes to an
action with zero endorsements, and the policy rejects an empty signature
set. -/
def ccRun : Collabs :=
  ⟨fun _ => Except.error "unused", fun _ => Except.error "unused",
   fun _ => Except.error "unused", fun _ _ => Except.error "unused",
   fun _ => Except.error "unused",
   fun bs => Except.ok ⟨bs, some ⟨[9], []⟩⟩,
   fun _ => Except.error "unused", fun _ => Except.error "unused",
   fun _ => Except.error "unused"⟩

/-- The C4 witness policy: reject an empty signature set. -/
def policyNoSigs : Policy := fun sds =>
  match sds with
  | [] => Except.error "no sigs"
  | _ => Except.ok ()

/-- Witness for C4 at a concrete input: with an empty passing prefix and
a failing first action, the verdict is that action's policy failure, both
with and without a later action in the list. -/
theorem validation_allpass_firstfail_witness :
    validateActions ccRun ⟨⟨[]⟩, []⟩ policyNoSigs [⟨[], []⟩, ⟨[], []⟩] =
      Response.error (policyEvalFailMsg "no sigs") ∧
    validateActions ccRun ⟨⟨[]⟩, []⟩ policyNoSigs [⟨[], []⟩] =
      Response.error (policyEvalFailMsg "no sigs") :=
  validation_allpass_firstfail.2.1 ccRun ⟨⟨[]⟩, []⟩ policyNoSigs
    [] ⟨[], []⟩ [⟨[], []⟩] [] (Response.error (policyEvalFailMsg "no sigs"))
    (fun b hb => absurd hb (List.not_mem_nil b)) rfl

/-! ## Claim C10: the lscc guard trigger is transaction-level -/

/-- The action step instrumented with a flag recording whether the lscc
guard branch was taken; its first component is exactly `doAction`. -/
def doActionG (c : Collabs) (payl : Payload) (policy : Policy)
    (act : TransactionAction) : Option Response × Bool :=
  match c.getChaincodeActionPayload act.payload with
  | Except.error e => (some (Response.error e), false)
  | Except.ok cap =>
    match cap.action with
    | none => (some (Response.panic nilDerefMsg), false)
    | some ea =>
      match policy (buildSignatureSet ea) with
      | Except.error e => (some (Response.error (policyEvalFailMsg e)), false)
      | Except.ok _ =>
        match c.getChaincodeHeaderExtension payl.header with
        | Except.error e => (some (Response.error e), false)
        | Except.ok hdrExt =>
          match hdrExt.chaincodeId with
          | none => (some (Response.panic nilDerefMsg), false)
          | some ccid =>
            if ccid.name = "lscc" then
              (match ValidateLSCCInvocation c cap with
               | LsccResult.ok => none
               | LsccResult.err e => some (Response.error e)
               | LsccResult.panic m => some (Response.panic m), true)
            else (none, false)

/-- Whether the lscc guard applies, as a function of the collaborators
and the transaction-level payload alone: the header extension is decoded
from `payl.header` and its chaincode name is compared with "lscc". -/
def guardFlag (c : Collabs) (payl : Payload) : Bool :=
  match c.getChaincodeHeaderExtension payl.header with
  | Except.error _ => false
  | Except.ok hdrExt =>
    match hdrExt.chaincodeId with
    | none => false
    | some ccid => decide (ccid.name = "lscc")

/-- The instrumentation is faithful: the first component of the
instrumented step is the plain step. -/
theorem doActionG_fst (c : Collabs) (payl : Payload) (policy : Policy)
    (act : TransactionAction) :
    (doActionG c payl policy act).1 = doAction c payl policy act := by
  cases h1 : c.getChaincodeActionPayload act.payload with
  | error e => simp [doActionG, doAction, h1]
  | ok cap =>
    cases h2 : cap.action with
    | none => simp [doActionG, doAction, h1, h2]
    | some ea =>
      cases h3 : policy (buildSignatureSet ea) with
      | error e => simp [doActionG, doAction, h1, h2, h3]
      | ok u =>
        cases h4 : c.getChaincodeHeaderExtension payl.header with
        | error e => simp [doActionG, doAction, h1, h2, h3, h4]
        | ok hdrExt =>
          cases h5 : hdrExt.chaincodeId with
          | none => simp [doActionG, doAction, h1, h2, h3, h4, h5]
          | some ccid =>
            by_cases h6 : ccid.name = "lscc"
            · cases h7 : ValidateLSCCInvocation c cap <;>
                simp [doActionG, doAction, h1, h2, h3, h4, h5, h6, h7]
            · simp [doActionG, doAction, h1, h2, h3, h4, h5, h6]

/-- For an action that passes its own earlier checks, the guard flag of
the instrumented step equals `guardFlag` of the transaction-level data. -/
theorem doActionG_snd (c : Collabs) (payl : Payload) (policy : Policy)
    (act : TransactionAction) (cap : ChaincodeActionPayload)
    (ea : ChaincodeEndorsedAction)
    (h1 : c.getChaincodeActionPayload act.payload = Except.ok cap)
    (h2 : cap.action = some ea)
    (h3 : policy (buildSignatureSet ea) = Except.ok ()) :
    (doActionG c payl policy act).2 = guardFlag c payl := by
  cases h4 : c.getChaincodeHeaderExtension payl.header with
  | error e => simp [doActionG, guardFlag, h1, h2, h3, h4]
  | ok hdrExt =>
    cases h5 : hdrExt.chaincodeId with
    | none => simp [doActionG, guardFlag, h1, h2, h3, h4, h5]
    | some ccid =>
      by_cases h6 : ccid.name = "lscc" <;>
        simp [doActionG, guardFlag, h1, h2, h3, h4, h5, h6]

/-- Claim C10: the instrumented step agrees with the real step on its
verdict, and for any two actions of the same transaction that pass their
own earlier checks, whether the lscc guard runs equals `guardFlag` — a
function of the collaborators and the transaction-level payload header
only, not of any field of the individual action; hence within one
transaction the guard runs for every such action or for none. -/
theorem guard_trigger_header_only (c : Collabs) (payl : Payload) (policy : Policy)
    (act₁ act₂ : TransactionAction) (cap₁ cap₂ : ChaincodeActionPayload)
    (ea₁ ea₂ : ChaincodeEndorsedAction)
    (h11 : c.getChaincodeActionPayload act₁.payload = Except.ok cap₁)
    (h12 : cap₁.action = some ea₁)
    (h13 : policy (buildSignatureSet ea₁) = Except.ok ())
    (h21 : c.getChaincodeActionPayload act₂.payload = Except.ok cap₂)
    (h22 : cap₂.action = some ea₂)
    (h23 : policy (buildSignatureSet ea₂) = Except.ok ()) :
    (∀ act, (doActionG c payl policy act).1 = doAction c payl policy act) ∧
    (doActionG c payl policy act₁).2 = guardFlag c payl ∧
    (doActionG c payl policy act₂).2 = guardFlag c payl := by
  refine ⟨fun act => doActionG_fst c payl policy act, ?_, ?_⟩
  · exact doActionG_snd c payl policy act₁ cap₁ ea₁ h11 h12 h13
  · exact doActionG_snd c payl policy act₂ cap₂ ea₂ h21 h22 h23

/-- Collaborators for the C10 witness: both actions decode, the policy
accepts, and the transaction-level header extension targets "lscc". -/
def ccLscc : Collabs :=
  ⟨fun _ => Except.error "unused", fun _ => Except.error "unused",
   fun _ => Except.error "unused", fun _ _ => Except.error "unused",
   fun _ => Except.error "unused",
   fun bs => Except.ok ⟨bs, some ⟨[8], []⟩⟩,
   fun _ => Except.ok ⟨some ⟨"lscc"⟩⟩,
   fun _ => Except.ok ⟨[2]⟩,
   fun _ => Except.ok ⟨some ⟨some ⟨some [DEPLOY]⟩⟩⟩⟩

/-- The C10 witness policy: accept everything. -/
def policyAcceptAll : Policy := fun _ => Except.ok ()

/-- Witness for C10 at concrete inputs: two distinct actions of the same
transaction both have their guard flags equal to the transaction-level
`guardFlag`. -/
theorem guard_trigger_header_only_witness :
    (doActionG ccLscc ⟨⟨[]⟩, []⟩ policyAcceptAll ⟨[], [1]⟩).2 =
      guardFlag ccLscc ⟨⟨[]⟩, []⟩ ∧
    (doActionG ccLscc ⟨⟨[]⟩, []⟩ policyAcceptAll ⟨[], [2]⟩).2 =
      guardFlag ccLscc ⟨⟨[]⟩, []⟩ :=
  ⟨(guard_trigger_header_only ccLscc ⟨⟨[]⟩, []⟩ policyAcceptAll
      ⟨[], [1]⟩ ⟨[], [2]⟩ ⟨[1], some ⟨[8], []⟩⟩ ⟨[2], some ⟨[8], []⟩⟩
      ⟨[8], []⟩ ⟨[8], []⟩ rfl rfl rfl rfl rfl rfl).2.1,
   (guard_trigger_header_only ccLscc ⟨⟨[]⟩, []⟩ policyAcceptAll
      ⟨[], [1]⟩ ⟨[], [2]⟩ ⟨[1], some ⟨[8], []⟩⟩ ⟨[2], some ⟨[8], []⟩⟩
      ⟨[8], []⟩ ⟨[8], []⟩ rfl rfl rfl rfl rfl rfl).2.2⟩

end VSCC
